import Mathlib

/-!
WASM_Module1: dispatcher, forcing helpers and setup sequence.

A shallow embedding of `src/WASM_Module1/WASM_Module1.cpp`.

* The four cache cells, the connection handle and the host's state are threaded
  explicitly through a `World`.
* Every observable action (a SimConnect call, an `execute_calculator_code`
  call, an `fprintf`) is appended to `World.trace`, in program order.
* The simulator is external.  Its calculator is a `Host` (a state type and a
  transition function chosen by the caller); the status codes it returns during
  `module_init` are an `InitHost` record, one field per call site.
* Constants of `SimConnect.h` (not part of the repository) are parameters,
  collected in `Sdk`; the only thing assumed about them is that the labels of
  one `switch` are pairwise distinct, which C requires.
* A C `double` is modelled by a rational number.  Every value the module
  writes (0, 1, 100) and the threshold 0.5 are exactly representable.
-/

namespace WASM_Module1

/-! ## Constants declared in the source -/

/-- Source line 32: `EVENT_FLIGHT_LOADED = 1`. -/
def EVENT_FLIGHT_LOADED : Nat := 1
/-- Source line 33: `EVENT_KEY_M = 2`. -/
def EVENT_KEY_M : Nat := 2
/-- Source line 40: `DEF_ONGROUND = 1`. -/
def DEF_ONGROUND : Nat := 1
/-- Source line 41: `DEF_TOD = 2`. -/
def DEF_TOD : Nat := 2
/-- Source line 48: `REQ_ONGROUND = 1`. -/
def REQ_ONGROUND : Nat := 1
/-- Source line 49: `REQ_TOD = 2`. -/
def REQ_TOD : Nat := 2
/-- Source line 56: `GROUP_KEYS = 1`. -/
def GROUP_KEYS : Nat := 1
/-- Source line 57: `INPUT_KEYS = 1`. -/
def INPUT_KEYS : Nat := 1

/-! ## Constants of the SimConnect SDK (parameters) -/

/-- The `case` labels of the `switch` in `SimConnectExceptionName` (lines 88 to 108), in source
order.  The numeric values live in `SimConnect.h`. -/
structure ExceptionIds where
  NONE : Nat
  ERROR : Nat
  SIZE_MISMATCH : Nat
  UNRECOGNIZED_ID : Nat
  UNOPENED : Nat
  VERSION_MISMATCH : Nat
  NAME_UNRECOGNIZED : Nat
  TOO_MANY_GROUPS : Nat
  TOO_MANY_EVENT_NAMES : Nat
  EVENT_ID_DUPLICATE : Nat
  TOO_MANY_MAPS : Nat
  TOO_MANY_OBJECTS : Nat
  TOO_MANY_REQUESTS : Nat
  INVALID_DATA_TYPE : Nat
  INVALID_DATA_SIZE : Nat
  DATA_ERROR : Nat
  INVALID_ENUM : Nat
  DEFINITION_ERROR : Nat
  DUPLICATE_ID : Nat
  OUT_OF_BOUNDS : Nat
  ALREADY_SUBSCRIBED : Nat

/-- All labels of the `switch` in `SimConnectExceptionName`, in source order. -/
def ExceptionIds.labels (c : ExceptionIds) : List Nat :=
  [c.NONE, c.ERROR, c.SIZE_MISMATCH, c.UNRECOGNIZED_ID, c.UNOPENED, c.VERSION_MISMATCH,
   c.NAME_UNRECOGNIZED, c.TOO_MANY_GROUPS, c.TOO_MANY_EVENT_NAMES, c.EVENT_ID_DUPLICATE,
   c.TOO_MANY_MAPS, c.TOO_MANY_OBJECTS, c.TOO_MANY_REQUESTS, c.INVALID_DATA_TYPE,
   c.INVALID_DATA_SIZE, c.DATA_ERROR, c.INVALID_ENUM, c.DEFINITION_ERROR, c.DUPLICATE_ID,
   c.OUT_OF_BOUNDS, c.ALREADY_SUBSCRIBED]

/-- The SDK constants the module compares against.  `recvDistinct` and `excDistinct` record that
the labels of each `switch` are pairwise distinct (a C `switch` with a repeated label does not
compile). -/
structure Sdk where
  S_OK : Int
  SIMCONNECT_RECV_ID_EVENT_FILENAME : Nat
  SIMCONNECT_RECV_ID_EVENT : Nat
  SIMCONNECT_RECV_ID_EXCEPTION : Nat
  SIMCONNECT_RECV_ID_SIMOBJECT_DATA : Nat
  exc : ExceptionIds
  recvDistinct : [SIMCONNECT_RECV_ID_EVENT_FILENAME, SIMCONNECT_RECV_ID_EVENT,
    SIMCONNECT_RECV_ID_EXCEPTION, SIMCONNECT_RECV_ID_SIMOBJECT_DATA].Nodup
  excDistinct : exc.labels.Nodup

/-- SDK constants that the module only passes on to the host, never inspects. -/
inductive SdkConst
  | SIMCONNECT_DATATYPE_INT32
  | SIMCONNECT_OBJECT_ID_USER
  | SIMCONNECT_PERIOD_SIM_FRAME
  | SIMCONNECT_DATA_REQUEST_FLAG_CHANGED
  | SIMCONNECT_GROUP_PRIORITY_HIGHEST
  | SIMCONNECT_STATE_ON
  deriving DecidableEq, Repr

/-! ## Observable actions -/

/-- One constructor per `fprintf(stderr, ...)` call of the source, with the values substituted
into its format string. -/
inductive LogLine
  /-- Line 142: `"[ADRIAN] TIME OF DAY enum = %d, L:c53_is_day = %d\n"`. -/
  | forcedTimeOfDay (todEnum isDay : Int)
  /-- Line 156: `"Could not open SimConnect connection.\n"`. -/
  | openFailed
  /-- Line 167: `"AddToDataDefinition(ONGROUND) failed.\n"`. -/
  | addOnGroundFailed
  /-- Line 176: `"RequestDataOnSimObject(ONGROUND) failed.\n"`. -/
  | requestOnGroundFailed
  /-- Line 192: `"AddToDataDefinition(TIME OF DAY) failed.\n"`. -/
  | addTimeOfDayFailed
  /-- Line 202: `"RequestDataOnSimObject(TIME OF DAY) failed.\n"`. -/
  | requestTimeOfDayFailed
  /-- Line 209: `"MapClientEventToSimEvent(EVENT_KEY_M) fallo hr=0x%08X\n"`. -/
  | mapClientEventFailed (hr : Nat)
  /-- Line 215: `"AddClientEventToNotificationGroup fallo hr=0x%08X\n"`. -/
  | addToNotificationGroupFailed (hr : Nat)
  /-- Line 225: `"MapInputEventToClientEvent_EX1(\"M\") fallo hr=0x%08X\n"`. -/
  | mapInputEventFailed (hr : Nat)
  /-- Line 234: `"Could not set dispatch proc.\n"`. -/
  | dispatchFailed
  /-- Line 238: `"[ADRIAN] init OK. ONGROUND + TIME OF DAY (CHANGED) y key M (EX1) \n"`. -/
  | initOK
  /-- Line 249: `"Could not close SimConnect connection.\n"`. -/
  | closeFailed
  /-- Line 266: `"ADRIAN New Flight Loaded: %s\n"`. -/
  | flightLoaded (szFileName : String)
  /-- Line 274: `"aprete m\n"`. -/
  | keyM
  /-- Line 283: `"[SimConnect EXCEPTION] id=%u (%s) sendID=%u index=%u\n"`. -/
  | exception (dwException : Nat) (name : String) (dwSendID dwIndex : Nat)
  /-- Line 307: `"[ADRIAN] SIM ON GROUND = %d\n"`. -/
  | simOnGround (onGround : Int)
  /-- Line 322: `"[ADRIAN] L:c53_landing = %d\n"`. -/
  | landing (landing : Int)
  /-- Line 333: `"[ADRIAN] TIME OF DAY enum = %d (0=Dawn,1=Day,2=Dusk,3=Night)\n"`. -/
  | timeOfDay (todEnum : Int)
  /-- Line 350: `"[ADRIAN] L:c53_is_day = %d\n"`. -/
  | isDay (isDayBool : Int)
  deriving DecidableEq, Repr

/-- A SimConnect API call made by the module, with its arguments (the connection handle first). -/
inductive SimCall
  | Open (szName : String)
  | SubscribeToSystemEvent (h : Nat) (eventID : Nat) (name : String)
  | AddToDataDefinition (h : Nat) (defineID : Nat) (datumName unitsName : String)
      (datumType : SdkConst)
  | RequestDataOnSimObject (h : Nat) (requestID defineID : Nat) (objectID period flags : SdkConst)
  | MapClientEventToSimEvent (h : Nat) (eventID : Nat) (eventName : Option String)
  | AddClientEventToNotificationGroup (h : Nat) (groupID eventID : Nat) (maskable : Bool)
  | SetNotificationGroupPriority (h : Nat) (groupID : Nat) (priority : SdkConst)
  | MapInputEventToClientEvent_EX1 (h : Nat) (groupID : Nat) (inputDefinition : String)
      (downEventID : Nat)
  | SetInputGroupPriority (h : Nat) (groupID : Nat) (priority : SdkConst)
  | SetInputGroupState (h : Nat) (groupID : Nat) (state : SdkConst)
  | CallDispatch (h : Nat)
  | Close (h : Nat)
  deriving DecidableEq, Repr

/-- An observable action of the module. -/
inductive Event
  /-- A call `execute_calculator_code(code, fvalue, nullptr, nullptr)`; `wantsValue` tells whether
  `fvalue` is a non-null pointer. -/
  | calc (code : String) (wantsValue : Bool)
  /-- A SimConnect API call. -/
  | simconnect (call : SimCall)
  /-- A line printed to `stderr`. -/
  | log (line : LogLine)
  deriving DecidableEq, Repr

/-! ## Exception names (lines 86 to 111) -/

/-- Source lines 86 to 111.  The `switch` is an if-chain over its labels in source order (the
labels are distinct, so the order does not matter). -/
def SimConnectExceptionName (c : ExceptionIds) (e : Nat) : String :=
  if e = c.NONE then "NONE"
  else if e = c.ERROR then "ERROR"
  else if e = c.SIZE_MISMATCH then "SIZE_MISMATCH"
  else if e = c.UNRECOGNIZED_ID then "UNRECOGNIZED_ID"
  else if e = c.UNOPENED then "UNOPEN"
  else if e = c.VERSION_MISMATCH then "VERSION_MISMATCH"
  else if e = c.NAME_UNRECOGNIZED then "NAME_UNRECOGNIZED"
  else if e = c.TOO_MANY_GROUPS then "TOO_MANY_GROUPS"
  else if e = c.TOO_MANY_EVENT_NAMES then "TOO_MANY_EVENT_NAMES"
  else if e = c.EVENT_ID_DUPLICATE then "EVENT_ID_DUPLICATE"
  else if e = c.TOO_MANY_MAPS then "TOO_MANY_MAPS"
  else if e = c.TOO_MANY_OBJECTS then "TOO_MANY_OBJECTS"
  else if e = c.TOO_MANY_REQUESTS then "TOO_MANY_REQUESTS"
  else if e = c.INVALID_DATA_TYPE then "INVALID_DATA_TYPE"
  else if e = c.INVALID_DATA_SIZE then "INVALID_DATA_SIZE"
  else if e = c.DATA_ERROR then "DATA_ERROR"
  else if e = c.INVALID_ENUM then "INVALID_ENUM"
  else if e = c.DEFINITION_ERROR then "DEFINITION_ERROR"
  else if e = c.DUPLICATE_ID then "DUPLICATE_ID"
  else if e = c.OUT_OF_BOUNDS then "OUT_OF_BOUNDS"
  else if e = c.ALREADY_SUBSCRIBED then "ALREADY_SUBSCRIBED"
  else "UNKNOWN"

/-- The name the SDK documents for each listed code: the identifier of the constant without its
`SIMCONNECT_EXCEPTION_` stem.  This follows the specification, not the function body. -/
def documentedExceptionNames (c : ExceptionIds) : List (Nat × String) :=
  [(c.NONE, "NONE"), (c.ERROR, "ERROR"), (c.SIZE_MISMATCH, "SIZE_MISMATCH"),
   (c.UNRECOGNIZED_ID, "UNRECOGNIZED_ID"), (c.UNOPENED, "UNOPENED"),
   (c.VERSION_MISMATCH, "VERSION_MISMATCH"), (c.NAME_UNRECOGNIZED, "NAME_UNRECOGNIZED"),
   (c.TOO_MANY_GROUPS, "TOO_MANY_GROUPS"), (c.TOO_MANY_EVENT_NAMES, "TOO_MANY_EVENT_NAMES"),
   (c.EVENT_ID_DUPLICATE, "EVENT_ID_DUPLICATE"), (c.TOO_MANY_MAPS, "TOO_MANY_MAPS"),
   (c.TOO_MANY_OBJECTS, "TOO_MANY_OBJECTS"), (c.TOO_MANY_REQUESTS, "TOO_MANY_REQUESTS"),
   (c.INVALID_DATA_TYPE, "INVALID_DATA_TYPE"), (c.INVALID_DATA_SIZE, "INVALID_DATA_SIZE"),
   (c.DATA_ERROR, "DATA_ERROR"), (c.INVALID_ENUM, "INVALID_ENUM"),
   (c.DEFINITION_ERROR, "DEFINITION_ERROR"), (c.DUPLICATE_ID, "DUPLICATE_ID"),
   (c.OUT_OF_BOUNDS, "OUT_OF_BOUNDS"), (c.ALREADY_SUBSCRIBED, "ALREADY_SUBSCRIBED")]

/-- The `case` labels of `SimConnectExceptionName` with the string each returns, in source
order. -/
def exceptionCases (c : ExceptionIds) : List (Nat × String) :=
  [(c.NONE, "NONE"), (c.ERROR, "ERROR"), (c.SIZE_MISMATCH, "SIZE_MISMATCH"),
   (c.UNRECOGNIZED_ID, "UNRECOGNIZED_ID"), (c.UNOPENED, "UNOPEN"),
   (c.VERSION_MISMATCH, "VERSION_MISMATCH"), (c.NAME_UNRECOGNIZED, "NAME_UNRECOGNIZED"),
   (c.TOO_MANY_GROUPS, "TOO_MANY_GROUPS"), (c.TOO_MANY_EVENT_NAMES, "TOO_MANY_EVENT_NAMES"),
   (c.EVENT_ID_DUPLICATE, "EVENT_ID_DUPLICATE"), (c.TOO_MANY_MAPS, "TOO_MANY_MAPS"),
   (c.TOO_MANY_OBJECTS, "TOO_MANY_OBJECTS"), (c.TOO_MANY_REQUESTS, "TOO_MANY_REQUESTS"),
   (c.INVALID_DATA_TYPE, "INVALID_DATA_TYPE"), (c.INVALID_DATA_SIZE, "INVALID_DATA_SIZE"),
   (c.DATA_ERROR, "DATA_ERROR"), (c.INVALID_ENUM, "INVALID_ENUM"),
   (c.DEFINITION_ERROR, "DEFINITION_ERROR"), (c.DUPLICATE_ID, "DUPLICATE_ID"),
   (c.OUT_OF_BOUNDS, "OUT_OF_BOUNDS"), (c.ALREADY_SUBSCRIBED, "ALREADY_SUBSCRIBED")]

/-- First match in an association list, `dflt` when there is none: what a `switch` computes. -/
def switchOn (dflt : String) : List (Nat × String) → Nat → String
  | [], _ => dflt
  | (k, v) :: rest, e => if e = k then v else switchOn dflt rest e

/-- The values the SimConnect SDK header gives to the exception constants used by the module. -/
def sdkExceptionIds : ExceptionIds where
  NONE := 0
  ERROR := 1
  SIZE_MISMATCH := 2
  UNRECOGNIZED_ID := 3
  UNOPENED := 4
  VERSION_MISMATCH := 5
  TOO_MANY_GROUPS := 6
  NAME_UNRECOGNIZED := 7
  TOO_MANY_EVENT_NAMES := 8
  EVENT_ID_DUPLICATE := 9
  TOO_MANY_MAPS := 10
  TOO_MANY_OBJECTS := 11
  TOO_MANY_REQUESTS := 12
  INVALID_DATA_TYPE := 18
  INVALID_DATA_SIZE := 19
  DATA_ERROR := 20
  ALREADY_SUBSCRIBED := 26
  INVALID_ENUM := 27
  DEFINITION_ERROR := 28
  DUPLICATE_ID := 29
  OUT_OF_BOUNDS := 31

/-- The values the SDK headers give to the constants collected in `Sdk`. -/
def sdk0 : Sdk where
  S_OK := 0
  SIMCONNECT_RECV_ID_EXCEPTION := 1
  SIMCONNECT_RECV_ID_EVENT := 4
  SIMCONNECT_RECV_ID_EVENT_FILENAME := 6
  SIMCONNECT_RECV_ID_SIMOBJECT_DATA := 8
  exc := sdkExceptionIds
  recvDistinct := by decide
  excDistinct := by decide

/-! ## The host and the module state -/

/-- The simulator's calculator as seen through `execute_calculator_code`: running `code` in host
state `s` yields the number handed back through `fvalue` and the next host state.  The module
ignores the call's return value. -/
structure Host (σ : Type) where
  exec : String → σ → ℚ × σ

/-- The module's globals (lines 26 and 78 to 81), the host's state and the actions so far. -/
structure World (σ : Type) where
  host : σ
  g_hSimConnect : Nat
  s_lastOnGround : Int
  s_lastLanding : Int
  s_lastTODEnum : Int
  s_lastIsDay : Int
  trace : List Event

/-- The state right after the module is loaded: zero handle (line 26), the four caches at the
sentinel `-1` (lines 78 to 81), nothing done yet. -/
def World.initial {σ : Type} (s : σ) : World σ where
  host := s
  g_hSimConnect := 0
  s_lastOnGround := -1
  s_lastLanding := -1
  s_lastTODEnum := -1
  s_lastIsDay := -1
  trace := []

/-- Prints one line: `fprintf(stderr, ...)`. -/
def fprintf {σ : Type} (line : LogLine) (w : World σ) : World σ :=
  { w with trace := w.trace ++ [Event.log line] }

/-- Runs `execute_calculator_code(code, fvalue, nullptr, nullptr)`: the call is recorded, the
host moves on, and the number the host hands back is returned (unused when `fvalue` is null). -/
def execute_calculator_code {σ : Type} (h : Host σ) (code : String) (wantsValue : Bool)
    (w : World σ) : ℚ × World σ :=
  ((h.exec code w.host).1,
   { w with host := (h.exec code w.host).2, trace := w.trace ++ [Event.calc code wantsValue] })

/-- Records one SimConnect API call. -/
def simconnect {σ : Type} (call : SimCall) (w : World σ) : World σ :=
  { w with trace := w.trace ++ [Event.simconnect call] }

/-- The C cast `(int)x` of a `double`: truncation toward zero.  For a value whose truncation is
outside the range of a 32-bit `int` the C cast is undefined; the model returns `INT_MIN` there, as
the conversion instruction of a native build does. -/
def castInt (x : ℚ) : Int :=
  if -2 ^ 31 ≤ Int.tdiv x.num x.den ∧ Int.tdiv x.num x.den < 2 ^ 31 then Int.tdiv x.num x.den
  else -2 ^ 31

/-- The C cast `(unsigned)hr` of a 32-bit `HRESULT`. -/
def castUnsigned (hr : Int) : Nat := (hr % 2 ^ 32).toNat

/-! ## Forcing helpers (lines 117 to 144) -/

/-- Source lines 117 to 121. -/
def ForceSoundVolumeValue {σ : Type} (h : Host σ) (w : World σ) : World σ :=
  (execute_calculator_code h "100 (>L:C53_SOUND_VOLUME, number)" false w).2

/-- Source lines 126 to 144. -/
def ForceTimeOfDayValue {σ : Type} (h : Host σ) (w : World σ) : World σ :=
  let r := execute_calculator_code h "(TIME OF DAY, enum)" true w
  let todEnum : ℚ := r.1
  let w := r.2
  let isDay : Int := if castInt todEnum = 1 then 1 else 0
  let w :=
    if isDay = 1 then (execute_calculator_code h "1 (>L:c53_is_day, bool)" false w).2
    else (execute_calculator_code h "0 (>L:c53_is_day, bool)" false w).2
  fprintf (LogLine.forcedTimeOfDay (castInt todEnum) isDay) w

/-! ## Setup and teardown (lines 153 to 251) -/

/-- What the host answers during `module_init`: one status code per call site, in source order,
and the handle `SimConnect_Open` leaves in `g_hSimConnect`. -/
structure InitHost where
  hrOpen : Int
  hSimConnect : Nat
  hrSubscribe : Int
  hrAddOnGround : Int
  hrRequestOnGround : Int
  /-- Line 181, units `"Enum"`. -/
  hrAddTodEnum : Int
  /-- Line 187, units `"Number"`. -/
  hrAddTodNumber : Int
  hrRequestTod : Int
  hrMapEvt : Int
  hrAdd : Int
  hrSetNotificationPriority : Int
  hrKey : Int
  hrSetInputPriority : Int
  hrSetInputState : Int
  hrCallDispatch : Int

/-- Source lines 180 to 195: the time-of-day definition with its fallback.  Returns the final
`hr` and the world after the one or two calls. -/
def defineTimeOfDay {σ : Type} (sdk : Sdk) (r : InitHost) (w : World σ) : Int × World σ :=
  let w := simconnect (SimCall.AddToDataDefinition w.g_hSimConnect DEF_TOD "TIME OF DAY" "Enum"
    SdkConst.SIMCONNECT_DATATYPE_INT32) w
  let hr := r.hrAddTodEnum
  if hr ≠ sdk.S_OK then
    let w := simconnect (SimCall.AddToDataDefinition w.g_hSimConnect DEF_TOD "TIME OF DAY" "Number"
      SdkConst.SIMCONNECT_DATATYPE_INT32) w
    (r.hrAddTodNumber, w)
  else (hr, w)

/-- Source lines 206 to 238: the input mapping and the dispatcher registration. -/
def mapInputAndDispatch {σ : Type} (sdk : Sdk) (r : InitHost) (w : World σ) : World σ :=
  let w := simconnect (SimCall.MapClientEventToSimEvent w.g_hSimConnect EVENT_KEY_M none) w
  let hrMapEvt := r.hrMapEvt
  let w := if hrMapEvt ≠ sdk.S_OK then
    fprintf (LogLine.mapClientEventFailed (castUnsigned hrMapEvt)) w else w
  let w := simconnect
    (SimCall.AddClientEventToNotificationGroup w.g_hSimConnect GROUP_KEYS EVENT_KEY_M false) w
  let hrAdd := r.hrAdd
  let w := if hrAdd ≠ sdk.S_OK then
    fprintf (LogLine.addToNotificationGroupFailed (castUnsigned hrAdd)) w else w
  let w := simconnect (SimCall.SetNotificationGroupPriority w.g_hSimConnect GROUP_KEYS
    SdkConst.SIMCONNECT_GROUP_PRIORITY_HIGHEST) w
  let w := simconnect
    (SimCall.MapInputEventToClientEvent_EX1 w.g_hSimConnect INPUT_KEYS "M" EVENT_KEY_M) w
  let hrKey := r.hrKey
  let w := if hrKey ≠ sdk.S_OK then
    fprintf (LogLine.mapInputEventFailed (castUnsigned hrKey)) w else w
  let w := simconnect (SimCall.SetInputGroupPriority w.g_hSimConnect INPUT_KEYS
    SdkConst.SIMCONNECT_GROUP_PRIORITY_HIGHEST) w
  let w := simconnect (SimCall.SetInputGroupState w.g_hSimConnect INPUT_KEYS
    SdkConst.SIMCONNECT_STATE_ON) w
  let w := simconnect (SimCall.CallDispatch w.g_hSimConnect) w
  if r.hrCallDispatch ≠ sdk.S_OK then fprintf LogLine.dispatchFailed w
  else fprintf LogLine.initOK w

/-- Source lines 153 to 239. -/
def module_init {σ : Type} (sdk : Sdk) (r : InitHost) (w : World σ) : World σ :=
  let w := { simconnect (SimCall.Open "Standalone Module") w with g_hSimConnect := r.hSimConnect }
  if r.hrOpen ≠ sdk.S_OK then fprintf LogLine.openFailed w
  else
    let w := simconnect
      (SimCall.SubscribeToSystemEvent w.g_hSimConnect EVENT_FLIGHT_LOADED "FlightLoaded") w
    let w := simconnect (SimCall.AddToDataDefinition w.g_hSimConnect DEF_ONGROUND "SIM ON GROUND"
      "Bool" SdkConst.SIMCONNECT_DATATYPE_INT32) w
    if r.hrAddOnGround ≠ sdk.S_OK then fprintf LogLine.addOnGroundFailed w
    else
      let w := simconnect (SimCall.RequestDataOnSimObject w.g_hSimConnect REQ_ONGROUND DEF_ONGROUND
        SdkConst.SIMCONNECT_OBJECT_ID_USER SdkConst.SIMCONNECT_PERIOD_SIM_FRAME
        SdkConst.SIMCONNECT_DATA_REQUEST_FLAG_CHANGED) w
      if r.hrRequestOnGround ≠ sdk.S_OK then fprintf LogLine.requestOnGroundFailed w
      else
        let d := defineTimeOfDay sdk r w
        let hr := d.1
        let w := d.2
        if hr ≠ sdk.S_OK then fprintf LogLine.addTimeOfDayFailed w
        else
          let w := simconnect (SimCall.RequestDataOnSimObject w.g_hSimConnect REQ_TOD DEF_TOD
            SdkConst.SIMCONNECT_OBJECT_ID_USER SdkConst.SIMCONNECT_PERIOD_SIM_FRAME
            SdkConst.SIMCONNECT_DATA_REQUEST_FLAG_CHANGED) w
          if r.hrRequestTod ≠ sdk.S_OK then fprintf LogLine.requestTimeOfDayFailed w
          else mapInputAndDispatch sdk r w

/-- Source lines 245 to 251; `hrClose` is the status `SimConnect_Close` returns. -/
def module_deinit {σ : Type} (sdk : Sdk) (hrClose : Int) (w : World σ) : World σ :=
  if w.g_hSimConnect = 0 then w
  else
    let w1 := simconnect (SimCall.Close w.g_hSimConnect) w
    let w2 := if hrClose ≠ sdk.S_OK then fprintf LogLine.closeFailed w1 else w1
    { w2 with g_hSimConnect := 0 }

/-! ## The dispatcher (lines 258 to 360) -/

/-- The fields of the received message the dispatcher looks at.  `SIMCONNECT_RECV` is a tagged
union: `dwID` is the tag, the other fields are those of the variant the source casts to.
`dwData` is the first data word read as an `int32_t` (`OnGroundData.onGround`,
`TimeOfDayData.tod`). -/
structure SIMCONNECT_RECV where
  dwID : Nat
  uEventID : Nat
  szFileName : String
  dwException : Nat
  dwSendID : Nat
  dwIndex : Nat
  dwRequestID : Nat
  dwData : Int

/-- Line 300: `d->onGround ? 1 : 0`. -/
def normalizeOnGround (onGround : Int) : Int := if onGround ≠ 0 then 1 else 0

/-- Lines 320 and 348: `(x >= 0.5) ? 1 : 0`. -/
def normalizeBool (x : ℚ) : Int := if x ≥ 0.5 then 1 else 0

/-- Lines 318 to 320: read `L:c53_landing` back from the host and normalize it. -/
def readLanding {σ : Type} (h : Host σ) (w : World σ) : Int × World σ :=
  let r := execute_calculator_code h "(L:c53_landing, bool)" true w
  (normalizeBool r.1, r.2)

/-- Lines 346 to 348: read `L:c53_is_day` back from the host and normalize it. -/
def readIsDay {σ : Type} (h : Host σ) (w : World σ) : Int × World σ :=
  let r := execute_calculator_code h "(L:c53_is_day, bool)" true w
  (normalizeBool r.1, r.2)

/-- Source lines 299 to 324: the `REQ_ONGROUND` branch. -/
def onGroundBranch {σ : Type} (h : Host σ) (pData : SIMCONNECT_RECV) (w : World σ) : World σ :=
  let onGround : Int := normalizeOnGround pData.dwData
  let w := ForceSoundVolumeValue h w
  let w := ForceTimeOfDayValue h w
  let w := if onGround ≠ w.s_lastOnGround then
    { fprintf (LogLine.simOnGround onGround) w with s_lastOnGround := onGround } else w
  let w := (execute_calculator_code h
    (if onGround ≠ 0 then "1 (>L:c53_landing, bool)" else "0 (>L:c53_landing, bool)") false w).2
  let r := readLanding h w
  let landing : Int := r.1
  let w := r.2
  if landing ≠ w.s_lastLanding then
    { fprintf (LogLine.landing landing) w with s_lastLanding := landing }
  else w

/-- Source lines 329 to 352: the `REQ_TOD` branch. -/
def timeOfDayBranch {σ : Type} (h : Host σ) (pData : SIMCONNECT_RECV) (w : World σ) : World σ :=
  let todEnum : Int := pData.dwData
  let w := if todEnum ≠ w.s_lastTODEnum then
    { fprintf (LogLine.timeOfDay todEnum) w with s_lastTODEnum := todEnum } else w
  let isDay : Int := if todEnum = 1 then 1 else 0
  let w := (execute_calculator_code h
    (if isDay ≠ 0 then "1 (>L:c53_is_day, bool)" else "0 (>L:c53_is_day, bool)") false w).2
  let r := readIsDay h w
  let isDayBool : Int := r.1
  let w := r.2
  if isDayBool ≠ w.s_lastIsDay then
    { fprintf (LogLine.isDay isDayBool) w with s_lastIsDay := isDayBool }
  else w

/-- Source lines 258 to 360.  The `switch` on `pData->dwID` is an if-chain over its four labels
in source order. -/
def MyDispatchProc {σ : Type} (sdk : Sdk) (h : Host σ) (pData : SIMCONNECT_RECV)
    (w : World σ) : World σ :=
  if pData.dwID = sdk.SIMCONNECT_RECV_ID_EVENT_FILENAME then
    if pData.uEventID = EVENT_FLIGHT_LOADED then
      fprintf (LogLine.flightLoaded pData.szFileName) w
    else w
  else if pData.dwID = sdk.SIMCONNECT_RECV_ID_EVENT then
    if pData.uEventID = EVENT_KEY_M then fprintf LogLine.keyM w else w
  else if pData.dwID = sdk.SIMCONNECT_RECV_ID_EXCEPTION then
    fprintf (LogLine.exception pData.dwException
      (SimConnectExceptionName sdk.exc pData.dwException) pData.dwSendID pData.dwIndex) w
  else if pData.dwID = sdk.SIMCONNECT_RECV_ID_SIMOBJECT_DATA then
    if pData.dwRequestID = REQ_ONGROUND then onGroundBranch h pData w
    else if pData.dwRequestID = REQ_TOD then timeOfDayBranch h pData w
    else w
  else w

/-- What one delivery does, seen from outside: the actions `MyDispatchProc` performs for
`pData` when started in `w` (the dispatcher never reads the trace). -/
def emitted {σ : Type} (sdk : Sdk) (h : Host σ) (pData : SIMCONNECT_RECV) (w : World σ) :
    List Event :=
  (MyDispatchProc sdk h pData { w with trace := [] }).trace

/-- The host's message loop: it hands the pending messages to the dispatcher one at a time, each
on the state the previous one left.  The result lists, per delivery, the actions it performed. -/
def deliveries {σ : Type} (sdk : Sdk) (h : Host σ) :
    List SIMCONNECT_RECV → World σ → List (List Event)
  | [], _ => []
  | m :: ms, w =>
    emitted sdk h m w :: deliveries sdk h ms (MyDispatchProc sdk h m { w with trace := [] })

/-! ## A reference host -/

/-- The variables of the reference host. -/
structure LVars where
  TIME_OF_DAY : ℚ
  C53_SOUND_VOLUME : ℚ
  c53_is_day : ℚ
  c53_landing : ℚ

/-- A host in which reading a custom variable returns the value last written to it: it runs the
eight calculator strings the module uses and ignores any other. -/
def lvarHost : Host LVars where
  exec code s :=
    if code = "100 (>L:C53_SOUND_VOLUME, number)" then (0, { s with C53_SOUND_VOLUME := 100 })
    else if code = "(TIME OF DAY, enum)" then (s.TIME_OF_DAY, s)
    else if code = "1 (>L:c53_is_day, bool)" then (0, { s with c53_is_day := 1 })
    else if code = "0 (>L:c53_is_day, bool)" then (0, { s with c53_is_day := 0 })
    else if code = "1 (>L:c53_landing, bool)" then (0, { s with c53_landing := 1 })
    else if code = "0 (>L:c53_landing, bool)" then (0, { s with c53_landing := 0 })
    else if code = "(L:c53_landing, bool)" then (s.c53_landing, s)
    else if code = "(L:c53_is_day, bool)" then (s.c53_is_day, s)
    else (0, s)

/-- A ground-contact delivery with payload `p` (SDK header values for the tags). -/
def groundMsg (p : Int) : SIMCONNECT_RECV :=
  { dwID := 8, uEventID := 0, szFileName := "", dwException := 0, dwSendID := 0, dwIndex := 0,
    dwRequestID := REQ_ONGROUND, dwData := p }

/-- A time-of-day delivery with payload `t` (SDK header values for the tags). -/
def todMsg (t : Int) : SIMCONNECT_RECV :=
  { dwID := 8, uEventID := 0, szFileName := "", dwException := 0, dwSendID := 0, dwIndex := 0,
    dwRequestID := REQ_TOD, dwData := t }

/-- The reference host at start-up: every variable zero. -/
def lvars0 : LVars := { TIME_OF_DAY := 0, C53_SOUND_VOLUME := 0, c53_is_day := 0, c53_landing := 0 }

/-! ## Reading a trace -/

/-- The values of the `"[ADRIAN] SIM ON GROUND = %d"` lines of a trace, in order. -/
def groundLines (t : List Event) : List Int :=
  t.filterMap fun e => match e with
    | Event.log (LogLine.simOnGround v) => some v
    | _ => none

/-- The lines printed in a trace, in order. -/
def logLines (t : List Event) : List LogLine :=
  t.filterMap fun e => match e with
    | Event.log l => some l
    | _ => none

/-- The calculator strings run in a trace, in order. -/
def calcCodes (t : List Event) : List String :=
  t.filterMap fun e => match e with
    | Event.calc code _ => some code
    | _ => none

/-- The SimConnect calls made in a trace, in order. -/
def simCalls (t : List Event) : List SimCall :=
  t.filterMap fun e => match e with
    | Event.simconnect c => some c
    | _ => none

/-- The values of the `"[ADRIAN] L:c53_landing = %d"` lines of a trace, in order. -/
def landingLines (t : List Event) : List Int :=
  t.filterMap fun e => match e with
    | Event.log (LogLine.landing v) => some v
    | _ => none

/-- The host state right after the dispatcher's write to `L:c53_landing` (lines 312 to 315) in
the `REQ_ONGROUND` branch started in `w`: the host has run the two forcing helpers and then the
write of the normalized payload. -/
def hostAfterLandingWrite {σ : Type} (h : Host σ) (pData : SIMCONNECT_RECV) (w : World σ) : σ :=
  (h.exec
    (if normalizeOnGround pData.dwData ≠ 0 then "1 (>L:c53_landing, bool)"
     else "0 (>L:c53_landing, bool)")
    (ForceTimeOfDayValue h (ForceSoundVolumeValue h w)).host).2

/-- How often `ForceSoundVolumeValue` ran: the number of writes of 100 to
`L:C53_SOUND_VOLUME` (line 120) in a trace. -/
def soundVolumeWrites (t : List Event) : Nat :=
  t.count (Event.calc "100 (>L:C53_SOUND_VOLUME, number)" false)

/-- The number of reads of the simulator's `TIME OF DAY` (line 129) in a trace. -/
def timeOfDayReads (t : List Event) : Nat :=
  t.count (Event.calc "(TIME OF DAY, enum)" true)

/-- The number of writes to `L:c53_is_day` (lines 135, 138 and 340) in a trace. -/
def isDayWrites (t : List Event) : Nat :=
  t.count (Event.calc "1 (>L:c53_is_day, bool)" false) +
  t.count (Event.calc "0 (>L:c53_is_day, bool)" false)

/-- The number of lines printed by `ForceTimeOfDayValue` (line 142) in a trace. -/
def forcedTimeOfDayLines (t : List Event) : Nat :=
  (t.filter fun e => match e with
    | Event.log (LogLine.forcedTimeOfDay _ _) => true
    | _ => false).length

/-- The host keeps a custom variable, observed by `val`: running `write0` or `write1` sets it to
0 or 1, and running `read` returns its current value and leaves it alone.  So a read returns the
value last written. -/
def Host.TracksLVar {σ : Type} (h : Host σ) (val : σ → ℚ) (read write0 write1 : String) : Prop :=
  ∀ s, val (h.exec write0 s).2 = 0 ∧ val (h.exec write1 s).2 = 1 ∧
    (h.exec read s).1 = val s ∧ val (h.exec read s).2 = val s

/-! ## The call sites of `module_init`, by name -/

/-- Line 155. -/
def openCall : Event := Event.simconnect (SimCall.Open "Standalone Module")

/-- Line 161. -/
def subscribeCall (hSim : Nat) : Event :=
  Event.simconnect (SimCall.SubscribeToSystemEvent hSim EVENT_FLIGHT_LOADED "FlightLoaded")

/-- Lines 163 to 165. -/
def addOnGroundCall (hSim : Nat) : Event :=
  Event.simconnect (SimCall.AddToDataDefinition hSim DEF_ONGROUND "SIM ON GROUND" "Bool"
    SdkConst.SIMCONNECT_DATATYPE_INT32)

/-- Lines 171 to 174. -/
def requestOnGroundCall (hSim : Nat) : Event :=
  Event.simconnect (SimCall.RequestDataOnSimObject hSim REQ_ONGROUND DEF_ONGROUND
    SdkConst.SIMCONNECT_OBJECT_ID_USER SdkConst.SIMCONNECT_PERIOD_SIM_FRAME
    SdkConst.SIMCONNECT_DATA_REQUEST_FLAG_CHANGED)

/-- Lines 181 to 184 (`unitsName = "Enum"`) and 187 to 190 (`unitsName = "Number"`). -/
def addTimeOfDayCall (hSim : Nat) (unitsName : String) : Event :=
  Event.simconnect (SimCall.AddToDataDefinition hSim DEF_TOD "TIME OF DAY" unitsName
    SdkConst.SIMCONNECT_DATATYPE_INT32)

/-- Lines 197 to 200. -/
def requestTimeOfDayCall (hSim : Nat) : Event :=
  Event.simconnect (SimCall.RequestDataOnSimObject hSim REQ_TOD DEF_TOD
    SdkConst.SIMCONNECT_OBJECT_ID_USER SdkConst.SIMCONNECT_PERIOD_SIM_FRAME
    SdkConst.SIMCONNECT_DATA_REQUEST_FLAG_CHANGED)

/-- Line 207. -/
def mapClientEventCall (hSim : Nat) : Event :=
  Event.simconnect (SimCall.MapClientEventToSimEvent hSim EVENT_KEY_M none)

/-- Line 213. -/
def addToNotificationGroupCall (hSim : Nat) : Event :=
  Event.simconnect (SimCall.AddClientEventToNotificationGroup hSim GROUP_KEYS EVENT_KEY_M false)

/-- Line 217. -/
def setNotificationPriorityCall (hSim : Nat) : Event :=
  Event.simconnect (SimCall.SetNotificationGroupPriority hSim GROUP_KEYS
    SdkConst.SIMCONNECT_GROUP_PRIORITY_HIGHEST)

/-- Lines 220 to 223. -/
def mapKeyCall (hSim : Nat) : Event :=
  Event.simconnect (SimCall.MapInputEventToClientEvent_EX1 hSim INPUT_KEYS "M" EVENT_KEY_M)

/-- Line 229. -/
def setInputPriorityCall (hSim : Nat) : Event :=
  Event.simconnect (SimCall.SetInputGroupPriority hSim INPUT_KEYS
    SdkConst.SIMCONNECT_GROUP_PRIORITY_HIGHEST)

/-- Line 230. -/
def setInputStateCall (hSim : Nat) : Event :=
  Event.simconnect (SimCall.SetInputGroupState hSim INPUT_KEYS SdkConst.SIMCONNECT_STATE_ON)

/-- Line 233. -/
def callDispatchCall (hSim : Nat) : Event := Event.simconnect (SimCall.CallDispatch hSim)

/-- The calls of the time-of-day definition step: the primary one, and the fallback when the
primary one failed. -/
def timeOfDayDefinitionCalls (sdk : Sdk) (r : InitHost) : List Event :=
  if r.hrAddTodEnum = sdk.S_OK then [addTimeOfDayCall r.hSimConnect "Enum"]
  else [addTimeOfDayCall r.hSimConnect "Enum", addTimeOfDayCall r.hSimConnect "Number"]

/-- The calls of the mandatory steps (and the unchecked subscription), when all succeed. -/
def mandatoryCalls (sdk : Sdk) (r : InitHost) : List Event :=
  [openCall, subscribeCall r.hSimConnect, addOnGroundCall r.hSimConnect,
   requestOnGroundCall r.hSimConnect] ++ timeOfDayDefinitionCalls sdk r ++
  [requestTimeOfDayCall r.hSimConnect]

/-- What lines 206 to 238 do, in order, on handle `r.hSimConnect`: the six input-mapping calls,
a failure line with the status code after each of the three whose status is kept, the dispatcher
registration, and the closing line. -/
def inputMappingActions (sdk : Sdk) (r : InitHost) : List Event :=
  [mapClientEventCall r.hSimConnect] ++
  (if r.hrMapEvt ≠ sdk.S_OK then
    [Event.log (LogLine.mapClientEventFailed (castUnsigned r.hrMapEvt))] else []) ++
  [addToNotificationGroupCall r.hSimConnect] ++
  (if r.hrAdd ≠ sdk.S_OK then
    [Event.log (LogLine.addToNotificationGroupFailed (castUnsigned r.hrAdd))] else []) ++
  [setNotificationPriorityCall r.hSimConnect, mapKeyCall r.hSimConnect] ++
  (if r.hrKey ≠ sdk.S_OK then
    [Event.log (LogLine.mapInputEventFailed (castUnsigned r.hrKey))] else []) ++
  [setInputPriorityCall r.hSimConnect, setInputStateCall r.hSimConnect,
   callDispatchCall r.hSimConnect,
   Event.log (if r.hrCallDispatch ≠ sdk.S_OK then LogLine.dispatchFailed else LogLine.initOK)]

/-- The mandatory steps all succeed: open, both definitions (the time-of-day one possibly through
its fallback) and both requests. -/
def MandatoryOK (sdk : Sdk) (r : InitHost) : Prop :=
  r.hrOpen = sdk.S_OK ∧ r.hrAddOnGround = sdk.S_OK ∧ r.hrRequestOnGround = sdk.S_OK ∧
  (r.hrAddTodEnum = sdk.S_OK ∨ r.hrAddTodNumber = sdk.S_OK) ∧ r.hrRequestTod = sdk.S_OK

instance (sdk : Sdk) (r : InitHost) : Decidable (MandatoryOK sdk r) := by
  unfold MandatoryOK
  infer_instance

/-- The status code carried by a line, for the three lines that print one (`hr=0x%08X`). -/
def LogLine.statusCode : LogLine → Option Nat
  | LogLine.mapClientEventFailed hr => some hr
  | LogLine.addToNotificationGroupFailed hr => some hr
  | LogLine.mapInputEventFailed hr => some hr
  | _ => none

/-- Host answers in which every call succeeds (`S_OK = 0`) and the handle is 7. -/
def allOK : InitHost :=
  { hrOpen := 0, hSimConnect := 7, hrSubscribe := 0, hrAddOnGround := 0, hrRequestOnGround := 0,
    hrAddTodEnum := 0, hrAddTodNumber := 0, hrRequestTod := 0, hrMapEvt := 0, hrAdd := 0,
    hrSetNotificationPriority := 0, hrKey := 0, hrSetInputPriority := 0, hrSetInputState := 0,
    hrCallDispatch := 0 }

/-- The status `E_FAIL` (`0x80004005`) as a signed 32-bit `HRESULT`. -/
def E_FAIL : Int := -2147467259

/-- Scenario A: ground-contact deliveries with payloads 0, 0, 1. -/
def scenarioA : List SIMCONNECT_RECV := [groundMsg 0, groundMsg 0, groundMsg 1]

/-- An exception message with code 4 (SDK header value 1 for the tag). -/
def exceptionMsg : SIMCONNECT_RECV :=
  { dwID := 1, uEventID := 0, szFileName := "", dwException := 4, dwSendID := 12, dwIndex := 3,
    dwRequestID := 0, dwData := 0 }

/-- Host answers in which only the connection open fails. -/
def openFails : InitHost := { allOK with hrOpen := E_FAIL }

/-- Host answers in which only the primary time-of-day definition fails. -/
def enumRejected : InitHost := { allOK with hrAddTodEnum := E_FAIL }

/-- Host answers in which only `SimConnect_SetNotificationGroupPriority` fails. -/
def priorityFails : InitHost := { allOK with hrSetNotificationPriority := E_FAIL }

/-- Host answers in which only `SimConnect_MapInputEventToClientEvent_EX1` fails. -/
def keyFails : InitHost := { allOK with hrKey := E_FAIL }

/-! ## Exception names: proofs -/

theorem SimConnectExceptionName_eq_switchOn (c : ExceptionIds) (e : Nat) :
    SimConnectExceptionName c e = switchOn "UNKNOWN" (exceptionCases c) e := rfl

theorem switchOn_of_not_mem (dflt : String) (l : List (Nat × String)) (e : Nat)
    (h : e ∉ l.map Prod.fst) : switchOn dflt l e = dflt := by
  induction l with
  | nil => rfl
  | cons p rest ih =>
    obtain ⟨k, v⟩ := p
    simp only [List.map_cons, List.mem_cons, not_or] at h
    simp [switchOn, h.1, ih h.2]

theorem switchOn_of_mem (dflt : String) (l : List (Nat × String))
    (hd : (l.map Prod.fst).Nodup) (p : Nat × String) (hp : p ∈ l) :
    switchOn dflt l p.1 = p.2 := by
  induction l with
  | nil => simp at hp
  | cons q rest ih =>
    obtain ⟨k, v⟩ := q
    simp only [List.map_cons, List.nodup_cons] at hd
    rcases List.mem_cons.1 hp with h | h
    · subst h; simp [switchOn]
    · have hk : p.1 ≠ k := by
        intro hk
        exact hd.1 (hk ▸ List.mem_map_of_mem Prod.fst h)
      simp [switchOn, hk, ih hd.2 h]

theorem exceptionCases_keys (c : ExceptionIds) :
    (exceptionCases c).map Prod.fst = c.labels := rfl

/-- A code that is none of the labels falls through to the `default` case. -/
theorem SimConnectExceptionName_unlisted (c : ExceptionIds) (e : Nat) (he : e ∉ c.labels) :
    SimConnectExceptionName c e = "UNKNOWN" := by
  rw [SimConnectExceptionName_eq_switchOn]
  exact switchOn_of_not_mem _ _ _ (by rw [exceptionCases_keys]; exact he)

/-- Every listed code other than `UNOPENED` gets the documented name of its constant. -/
theorem SimConnectExceptionName_documented (sdk : Sdk) (p : Nat × String)
    (hp : p ∈ documentedExceptionNames sdk.exc) (hne : p.1 ≠ sdk.exc.UNOPENED) :
    SimConnectExceptionName sdk.exc p.1 = p.2 := by
  rw [SimConnectExceptionName_eq_switchOn]
  refine switchOn_of_mem _ _ (by rw [exceptionCases_keys]; exact sdk.excDistinct) p ?_
  simp only [documentedExceptionNames, List.mem_cons, List.mem_singleton, List.not_mem_nil,
    or_false] at hp
  rcases hp with h | h | h | h | h | h | h | h | h | h | h | h | h | h | h | h | h | h | h | h | h <;>
    subst h <;> first | (exact absurd rfl hne) | simp [exceptionCases]

/-- C5 (the defect): for the listed code `SIMCONNECT_EXCEPTION_UNOPENED` the function returns
`"UNOPEN"`, which is not the documented name `"UNOPENED"` of that constant. -/
theorem SimConnectExceptionName_UNOPENED (sdk : Sdk) :
    SimConnectExceptionName sdk.exc sdk.exc.UNOPENED = "UNOPEN" ∧
    (sdk.exc.UNOPENED, "UNOPENED") ∈ documentedExceptionNames sdk.exc ∧
    SimConnectExceptionName sdk.exc sdk.exc.UNOPENED ≠ "UNOPENED" := by
  have h1 : SimConnectExceptionName sdk.exc sdk.exc.UNOPENED = "UNOPEN" := by
    rw [SimConnectExceptionName_eq_switchOn]
    exact switchOn_of_mem _ _ (by rw [exceptionCases_keys]; exact sdk.excDistinct)
      (sdk.exc.UNOPENED, "UNOPEN") (by simp [exceptionCases])
  refine ⟨h1, ?_, ?_⟩
  · simp [documentedExceptionNames]
  · rw [h1]; decide

/-! ## The dispatcher: one delivery -/

theorem Sdk.recv_ne (sdk : Sdk) :
    sdk.SIMCONNECT_RECV_ID_SIMOBJECT_DATA ≠ sdk.SIMCONNECT_RECV_ID_EVENT_FILENAME ∧
    sdk.SIMCONNECT_RECV_ID_SIMOBJECT_DATA ≠ sdk.SIMCONNECT_RECV_ID_EVENT ∧
    sdk.SIMCONNECT_RECV_ID_SIMOBJECT_DATA ≠ sdk.SIMCONNECT_RECV_ID_EXCEPTION := by
  have h := sdk.recvDistinct
  simp only [List.nodup_cons, List.mem_cons, List.mem_singleton, not_or, List.not_mem_nil,
    not_false_eq_true, List.nodup_nil, and_true] at h
  omega

/-- A simulation-object data message reaches the fourth `case` of the `switch`. -/
theorem MyDispatchProc_simobject {σ : Type} (sdk : Sdk) (h : Host σ) (m : SIMCONNECT_RECV)
    (w : World σ) (hm : m.dwID = sdk.SIMCONNECT_RECV_ID_SIMOBJECT_DATA) :
    MyDispatchProc sdk h m w =
      if m.dwRequestID = REQ_ONGROUND then onGroundBranch h m w
      else if m.dwRequestID = REQ_TOD then timeOfDayBranch h m w
      else w := by
  obtain ⟨h1, h2, h3⟩ := sdk.recv_ne
  simp [MyDispatchProc, hm, h1, h2, h3]

theorem onGroundBranch_groundLines {σ : Type} (h : Host σ) (m : SIMCONNECT_RECV) (w : World σ) :
    groundLines (onGroundBranch h m { w with trace := [] }).trace =
      (if normalizeOnGround m.dwData ≠ w.s_lastOnGround then [normalizeOnGround m.dwData]
       else []) ∧
    (onGroundBranch h m { w with trace := [] }).s_lastOnGround = normalizeOnGround m.dwData := by
  simp only [onGroundBranch, ForceSoundVolumeValue, ForceTimeOfDayValue, readLanding,
    execute_calculator_code, fprintf, groundLines]
  split_ifs <;> simp_all

/-! ## The dispatcher only appends to the trace -/

theorem onGroundBranch_append {σ : Type} (h : Host σ) (m : SIMCONNECT_RECV) (w : World σ) :
    onGroundBranch h m w =
      { onGroundBranch h m { w with trace := [] } with
        trace := w.trace ++ (onGroundBranch h m { w with trace := [] }).trace } := by
  simp only [onGroundBranch, ForceSoundVolumeValue, ForceTimeOfDayValue, readLanding,
    execute_calculator_code, fprintf]
  split_ifs <;> simp

theorem timeOfDayBranch_append {σ : Type} (h : Host σ) (m : SIMCONNECT_RECV) (w : World σ) :
    timeOfDayBranch h m w =
      { timeOfDayBranch h m { w with trace := [] } with
        trace := w.trace ++ (timeOfDayBranch h m { w with trace := [] }).trace } := by
  simp only [timeOfDayBranch, readIsDay, execute_calculator_code, fprintf]
  split_ifs <;> simp

/-- The dispatcher never reads the trace: run from `w`, it ends in the state it reaches from `w`
with an empty trace, with the actions of `emitted` appended to the trace of `w`. -/
theorem MyDispatchProc_append {σ : Type} (sdk : Sdk) (h : Host σ) (m : SIMCONNECT_RECV)
    (w : World σ) :
    MyDispatchProc sdk h m w =
      { MyDispatchProc sdk h m { w with trace := [] } with
        trace := w.trace ++ emitted sdk h m w } := by
  unfold emitted MyDispatchProc
  split_ifs
  · simp [fprintf]
  · simp
  · simp [fprintf]
  · simp
  · simp [fprintf]
  · exact onGroundBranch_append h m w
  · exact timeOfDayBranch_append h m w
  · simp
  · simp

/-- A ground-contact delivery: simulation-object data answering request `REQ_ONGROUND`. -/
theorem emitted_ground {σ : Type} (sdk : Sdk) (h : Host σ) (m : SIMCONNECT_RECV) (w : World σ)
    (hm : m.dwID = sdk.SIMCONNECT_RECV_ID_SIMOBJECT_DATA) (hr : m.dwRequestID = REQ_ONGROUND) :
    groundLines (emitted sdk h m w) =
      (if normalizeOnGround m.dwData ≠ w.s_lastOnGround then [normalizeOnGround m.dwData]
       else []) ∧
    (MyDispatchProc sdk h m { w with trace := [] }).s_lastOnGround =
      normalizeOnGround m.dwData := by
  unfold emitted
  rw [MyDispatchProc_simobject sdk h m _ hm, if_pos hr]
  exact onGroundBranch_groundLines h m w

/-- The change log of a run of ground-contact deliveries from any state: delivery `k` prints the
line exactly when its normalized payload differs from the cache, which holds the normalized
payload of delivery `k - 1` (the starting cache for `k = 0`). -/
theorem deliveries_groundLines {σ : Type} (sdk : Sdk) (h : Host σ) :
    ∀ (ms : List SIMCONNECT_RECV) (w : World σ) (k : Nat) (m : SIMCONNECT_RECV),
      (∀ x ∈ ms, x.dwID = sdk.SIMCONNECT_RECV_ID_SIMOBJECT_DATA ∧ x.dwRequestID = REQ_ONGROUND) →
      ms[k]? = some m →
      ∃ seg, (deliveries sdk h ms w)[k]? = some seg ∧
        groundLines seg =
          if normalizeOnGround m.dwData ≠
              (if k = 0 then w.s_lastOnGround
               else ((ms[k - 1]?).map fun x => normalizeOnGround x.dwData).getD 0)
          then [normalizeOnGround m.dwData] else []
  | [], _, _, _, _, hk => by simp at hk
  | x :: xs, w, 0, m, hms, hk => by
    simp only [List.getElem?_cons_zero, Option.some.injEq] at hk
    subst hk
    have hx := hms x (List.mem_cons_self _ _)
    exact ⟨emitted sdk h x w, by simp [deliveries],
      by simpa using (emitted_ground sdk h x w hx.1 hx.2).1⟩
  | x :: xs, w, k + 1, m, hms, hk => by
    simp only [List.getElem?_cons_succ] at hk
    have hx := hms x (List.mem_cons_self _ _)
    obtain ⟨seg, hseg, hlines⟩ := deliveries_groundLines sdk h xs
      (MyDispatchProc sdk h x { w with trace := [] }) k m
      (fun y hy => hms y (List.mem_cons_of_mem _ hy)) hk
    refine ⟨seg, by simpa [deliveries] using hseg, ?_⟩
    rw [hlines, (emitted_ground sdk h x w hx.1 hx.2).2]
    cases k with
    | zero => simp
    | succ j => simp

/-- C1: starting from the initial cache, in any run of ground-contact deliveries with payloads in
`{0, 1}` (any host, any host state), delivery `k` prints the `SIM ON GROUND` line, once and with
its normalized payload, if `k` is the first delivery or its normalized payload differs from that of
delivery `k - 1`, and prints no such line otherwise.  In particular payloads 0, 0, 1 give the line
with 0 on the first delivery, none on the second and the line with 1 on the third. -/
theorem MyDispatchProc_onGround_change_log {σ : Type} (sdk : Sdk) (h : Host σ) (s0 : σ) :
    (∀ ms : List SIMCONNECT_RECV,
      (∀ m ∈ ms, m.dwID = sdk.SIMCONNECT_RECV_ID_SIMOBJECT_DATA ∧
        m.dwRequestID = REQ_ONGROUND ∧ (m.dwData = 0 ∨ m.dwData = 1)) →
      ∀ (k : Nat) (hk : k < ms.length),
        ∃ seg, (deliveries sdk h ms (World.initial s0))[k]? = some seg ∧
          groundLines seg =
            if k = 0 ∨ normalizeOnGround ms[k].dwData ≠ normalizeOnGround ms[k - 1].dwData
            then [normalizeOnGround ms[k].dwData] else []) ∧
    (∀ m1 m2 m3 : SIMCONNECT_RECV,
      (∀ m ∈ [m1, m2, m3], m.dwID = sdk.SIMCONNECT_RECV_ID_SIMOBJECT_DATA ∧
        m.dwRequestID = REQ_ONGROUND) →
      m1.dwData = 0 → m2.dwData = 0 → m3.dwData = 1 →
      (deliveries sdk h [m1, m2, m3] (World.initial s0)).map groundLines = [[0], [], [1]]) := by
  constructor
  · intro ms hms k hk
    obtain ⟨seg, hseg, hlines⟩ := deliveries_groundLines sdk h ms (World.initial s0) k ms[k]
      (fun x hx => ⟨(hms x hx).1, (hms x hx).2.1⟩) (List.getElem?_eq_getElem hk)
    refine ⟨seg, hseg, ?_⟩
    rw [hlines]
    rcases Nat.eq_zero_or_pos k with h0 | hpos
    · subst h0
      have hp := (hms ms[0] (List.getElem_mem _)).2.2
      rcases hp with hp | hp <;> simp [hp, normalizeOnGround, World.initial]
    · have hk1 : k - 1 < ms.length := by omega
      have hne : k ≠ 0 := by omega
      simp [hne, List.getElem?_eq_getElem hk1]
  · intro m1 m2 m3 hms d1 d2 d3
    have g1 := hms m1 (by simp)
    have g2 := hms m2 (by simp)
    have g3 := hms m3 (by simp)
    have e1 := emitted_ground sdk h m1 (World.initial s0) g1.1 g1.2
    have e2 := emitted_ground sdk h m2
      (MyDispatchProc sdk h m1 { (World.initial s0) with trace := [] }) g2.1 g2.2
    have e3 := emitted_ground sdk h m3
      (MyDispatchProc sdk h m2
        { (MyDispatchProc sdk h m1 { (World.initial s0) with trace := [] }) with trace := [] })
      g3.1 g3.2
    rw [e2.2] at e3
    rw [e1.2] at e2
    simp only [deliveries, List.map_cons, List.map_nil, e1.1, e2.1, e3.1]
    simp [d1, d2, d3, normalizeOnGround, World.initial]

/-! ## The forcing helpers run once per ground-contact delivery -/

theorem onGroundBranch_counts {σ : Type} (h : Host σ) (m : SIMCONNECT_RECV) (w : World σ) :
    soundVolumeWrites (onGroundBranch h m { w with trace := [] }).trace = 1 ∧
    timeOfDayReads (onGroundBranch h m { w with trace := [] }).trace = 1 ∧
    isDayWrites (onGroundBranch h m { w with trace := [] }).trace = 1 ∧
    forcedTimeOfDayLines (onGroundBranch h m { w with trace := [] }).trace = 1 := by
  simp only [onGroundBranch, ForceSoundVolumeValue, ForceTimeOfDayValue, readLanding,
    execute_calculator_code, fprintf, soundVolumeWrites, timeOfDayReads, isDayWrites,
    forcedTimeOfDayLines]
  split_ifs <;> simp_all [List.count_cons, List.filter_cons]

theorem emitted_ground_counts {σ : Type} (sdk : Sdk) (h : Host σ) (m : SIMCONNECT_RECV)
    (w : World σ) (hm : m.dwID = sdk.SIMCONNECT_RECV_ID_SIMOBJECT_DATA)
    (hr : m.dwRequestID = REQ_ONGROUND) :
    soundVolumeWrites (emitted sdk h m w) = 1 ∧ timeOfDayReads (emitted sdk h m w) = 1 ∧
    isDayWrites (emitted sdk h m w) = 1 ∧ forcedTimeOfDayLines (emitted sdk h m w) = 1 := by
  unfold emitted
  rw [MyDispatchProc_simobject sdk h m _ hm, if_pos hr]
  exact onGroundBranch_counts h m w

/-- C2: in any run of ground-contact deliveries (any payloads, any starting caches, any host),
every delivery writes 100 to `L:C53_SOUND_VOLUME` exactly once, reads `TIME OF DAY` exactly once,
writes `L:c53_is_day` exactly once and prints the line of `ForceTimeOfDayValue` exactly once; over
the whole run each of these happens as many times as there are deliveries. -/
theorem MyDispatchProc_onGround_forces_once {σ : Type} (sdk : Sdk) (h : Host σ)
    (ms : List SIMCONNECT_RECV) (w : World σ)
    (hms : ∀ m ∈ ms, m.dwID = sdk.SIMCONNECT_RECV_ID_SIMOBJECT_DATA ∧
      m.dwRequestID = REQ_ONGROUND) :
    (deliveries sdk h ms w).length = ms.length ∧
    (∀ seg ∈ deliveries sdk h ms w,
      soundVolumeWrites seg = 1 ∧ timeOfDayReads seg = 1 ∧ isDayWrites seg = 1 ∧
      forcedTimeOfDayLines seg = 1) ∧
    soundVolumeWrites (deliveries sdk h ms w).flatten = ms.length ∧
    timeOfDayReads (deliveries sdk h ms w).flatten = ms.length ∧
    isDayWrites (deliveries sdk h ms w).flatten = ms.length ∧
    forcedTimeOfDayLines (deliveries sdk h ms w).flatten = ms.length := by
  induction ms generalizing w with
  | nil => simp [deliveries, soundVolumeWrites, timeOfDayReads, isDayWrites, forcedTimeOfDayLines]
  | cons x xs ih =>
    have hx := hms x (List.mem_cons_self _ _)
    obtain ⟨c1, c2, c3, c4⟩ := emitted_ground_counts sdk h x w hx.1 hx.2
    obtain ⟨i0, i1, i2, i3, i4, i5⟩ := ih (MyDispatchProc sdk h x { w with trace := [] })
      (fun y hy => hms y (List.mem_cons_of_mem _ hy))
    refine ⟨by simp [deliveries, i0], ?_, ?_, ?_, ?_, ?_⟩
    · intro seg hseg
      simp only [deliveries, List.mem_cons] at hseg
      rcases hseg with rfl | hseg
      · exact ⟨c1, c2, c3, c4⟩
      · exact i1 seg hseg
    · simp only [soundVolumeWrites, deliveries, List.flatten_cons, List.count_append,
        List.length_cons] at c1 i2 ⊢
      omega
    · simp only [timeOfDayReads, deliveries, List.flatten_cons, List.count_append,
        List.length_cons] at c2 i3 ⊢
      omega
    · simp only [isDayWrites, deliveries, List.flatten_cons, List.count_append,
        List.length_cons] at c3 i4 ⊢
      omega
    · simp only [forcedTimeOfDayLines, deliveries, List.flatten_cons, List.filter_append,
        List.length_append, List.length_cons] at c4 i5 ⊢
      omega

/-! ## Write, then read back -/

theorem normalizeBool_zero : normalizeBool 0 = 0 := by
  unfold normalizeBool; norm_num

theorem normalizeBool_one : normalizeBool 1 = 1 := by
  unfold normalizeBool; norm_num

theorem Host.TracksLVar.write0 {σ : Type} {h : Host σ} {val : σ → ℚ} {read write0 write1 : String}
    (ht : h.TracksLVar val read write0 write1) (s : σ) : val (h.exec write0 s).2 = 0 :=
  (ht s).1

theorem Host.TracksLVar.write1 {σ : Type} {h : Host σ} {val : σ → ℚ} {read write0 write1 : String}
    (ht : h.TracksLVar val read write0 write1) (s : σ) : val (h.exec write1 s).2 = 1 :=
  (ht s).2.1

theorem Host.TracksLVar.read_fst {σ : Type} {h : Host σ} {val : σ → ℚ}
    {read write0 write1 : String} (ht : h.TracksLVar val read write0 write1) (s : σ) :
    (h.exec read s).1 = val s :=
  (ht s).2.2.1

theorem Host.TracksLVar.read_snd {σ : Type} {h : Host σ} {val : σ → ℚ}
    {read write0 write1 : String} (ht : h.TracksLVar val read write0 write1) (s : σ) :
    val (h.exec read s).2 = val s :=
  (ht s).2.2.2

theorem normalizeBool_normalizeOnGround (p : Int) :
    normalizeBool ((normalizeOnGround p : Int) : ℚ) = normalizeOnGround p := by
  unfold normalizeOnGround
  split_ifs
  · simpa using normalizeBool_one
  · simpa using normalizeBool_zero

/-- For any host, the `REQ_ONGROUND` branch ends with the host state its read-back left and with
`s_lastLanding` holding the normalized number that read-back returned. -/
theorem onGroundBranch_readback {σ : Type} (h : Host σ) (m : SIMCONNECT_RECV) (w : World σ) :
    (onGroundBranch h m w).s_lastLanding =
      normalizeBool (h.exec "(L:c53_landing, bool)" (hostAfterLandingWrite h m w)).1 ∧
    (onGroundBranch h m w).host =
      (h.exec "(L:c53_landing, bool)" (hostAfterLandingWrite h m w)).2 := by
  simp only [onGroundBranch, hostAfterLandingWrite, ForceSoundVolumeValue, ForceTimeOfDayValue,
    readLanding, execute_calculator_code, fprintf]
  split_ifs with a b c d <;> simp only [and_self, and_true, ne_eq, not_not] at * <;> omega

/-- For any host, the calculator strings of the `REQ_ONGROUND` branch are those of the two forcing
helpers, then the write of the normalized payload to `L:c53_landing`, then its read-back; the
`L:c53_landing` line is printed, with the read-back value, exactly when that value differs from
the cache. -/
theorem onGroundBranch_readback_trace {σ : Type} (h : Host σ) (m : SIMCONNECT_RECV)
    (w : World σ) :
    calcCodes (onGroundBranch h m { w with trace := [] }).trace =
      calcCodes (ForceTimeOfDayValue h (ForceSoundVolumeValue h { w with trace := [] })).trace ++
        [if normalizeOnGround m.dwData ≠ 0 then "1 (>L:c53_landing, bool)"
         else "0 (>L:c53_landing, bool)", "(L:c53_landing, bool)"] ∧
    landingLines (onGroundBranch h m { w with trace := [] }).trace =
      (if normalizeBool (h.exec "(L:c53_landing, bool)" (hostAfterLandingWrite h m w)).1 ≠
          w.s_lastLanding
       then [normalizeBool (h.exec "(L:c53_landing, bool)" (hostAfterLandingWrite h m w)).1]
       else []) := by
  simp only [onGroundBranch, hostAfterLandingWrite, ForceSoundVolumeValue, ForceTimeOfDayValue,
    readLanding, execute_calculator_code, fprintf, calcCodes, landingLines]
  split_ifs <;> simp_all

/-- C3: when the dispatcher handles a ground-contact delivery with payload `p` (any caches, any
host state), it writes the normalized payload (1 if `p ≠ 0`, else 0) to `L:c53_landing` and then
reads `L:c53_landing` back from the host: these are its last two calculator calls, `s_lastLanding`
ends as the normalized number that read returned, and the `L:c53_landing` line, when printed,
carries it.  On a host where reading `L:c53_landing` returns the value last written to it, the
host variable after the delivery, the normalized read-back and `s_lastLanding` all equal the
normalized payload. -/
theorem MyDispatchProc_landing_readback {σ : Type} (sdk : Sdk) (h : Host σ)
    (m : SIMCONNECT_RECV) (w : World σ)
    (hm : m.dwID = sdk.SIMCONNECT_RECV_ID_SIMOBJECT_DATA) (hr : m.dwRequestID = REQ_ONGROUND) :
    calcCodes (emitted sdk h m w) =
      calcCodes (ForceTimeOfDayValue h (ForceSoundVolumeValue h { w with trace := [] })).trace ++
        [if normalizeOnGround m.dwData ≠ 0 then "1 (>L:c53_landing, bool)"
         else "0 (>L:c53_landing, bool)", "(L:c53_landing, bool)"] ∧
    (MyDispatchProc sdk h m w).s_lastLanding =
      normalizeBool (h.exec "(L:c53_landing, bool)" (hostAfterLandingWrite h m w)).1 ∧
    (MyDispatchProc sdk h m w).host =
      (h.exec "(L:c53_landing, bool)" (hostAfterLandingWrite h m w)).2 ∧
    landingLines (emitted sdk h m w) =
      (if normalizeBool (h.exec "(L:c53_landing, bool)" (hostAfterLandingWrite h m w)).1 ≠
          w.s_lastLanding
       then [normalizeBool (h.exec "(L:c53_landing, bool)" (hostAfterLandingWrite h m w)).1]
       else []) ∧
    (∀ val : σ → ℚ,
      h.TracksLVar val "(L:c53_landing, bool)" "0 (>L:c53_landing, bool)"
        "1 (>L:c53_landing, bool)" →
      val (MyDispatchProc sdk h m w).host = ((normalizeOnGround m.dwData : Int) : ℚ) ∧
      normalizeBool (h.exec "(L:c53_landing, bool)" (hostAfterLandingWrite h m w)).1 =
        normalizeOnGround m.dwData ∧
      (MyDispatchProc sdk h m w).s_lastLanding = normalizeOnGround m.dwData) := by
  have hrb := onGroundBranch_readback h m w
  have htr := onGroundBranch_readback_trace h m w
  unfold emitted
  rw [MyDispatchProc_simobject sdk h m _ hm, MyDispatchProc_simobject sdk h m _ hm, if_pos hr,
    if_pos hr]
  refine ⟨htr.1, hrb.1, hrb.2, htr.2, ?_⟩
  intro val ht
  have hv : val (hostAfterLandingWrite h m w) = ((normalizeOnGround m.dwData : Int) : ℚ) := by
    unfold hostAfterLandingWrite normalizeOnGround
    by_cases hp : m.dwData = 0
    · simp [hp, ht.write0]
    · simp [hp, ht.write1]
  have hn : normalizeBool (h.exec "(L:c53_landing, bool)" (hostAfterLandingWrite h m w)).1 =
      normalizeOnGround m.dwData := by
    rw [ht.read_fst, hv, normalizeBool_normalizeOnGround]
  refine ⟨?_, hn, ?_⟩
  · rw [hrb.2, ht.read_snd, hv]
  · rw [hrb.1, hn]

/-! ## Time of day -/

theorem REQ_TOD_ne_REQ_ONGROUND : REQ_TOD ≠ REQ_ONGROUND := by decide

theorem emitted_timeOfDay {σ : Type} (sdk : Sdk) (h : Host σ) (m : SIMCONNECT_RECV) (w : World σ)
    (hm : m.dwID = sdk.SIMCONNECT_RECV_ID_SIMOBJECT_DATA) (hr : m.dwRequestID = REQ_TOD) :
    emitted sdk h m w = (timeOfDayBranch h m { w with trace := [] }).trace := by
  unfold emitted
  rw [MyDispatchProc_simobject sdk h m _ hm, if_neg (by rw [hr]; exact REQ_TOD_ne_REQ_ONGROUND),
    if_pos hr]

/-- C4: for a time-of-day delivery with payload `t` (any caches, any host), the dispatcher runs
exactly two calculator strings: first the write to `L:c53_is_day`, of 1 when `t = 1` and of 0
otherwise, then its read-back. -/
theorem MyDispatchProc_isDay_write {σ : Type} (sdk : Sdk) (h : Host σ) (m : SIMCONNECT_RECV)
    (w : World σ) (hm : m.dwID = sdk.SIMCONNECT_RECV_ID_SIMOBJECT_DATA)
    (hr : m.dwRequestID = REQ_TOD) :
    calcCodes (emitted sdk h m w) =
      [if m.dwData = 1 then "1 (>L:c53_is_day, bool)" else "0 (>L:c53_is_day, bool)",
       "(L:c53_is_day, bool)"] := by
  rw [emitted_timeOfDay sdk h m w hm hr]
  simp only [timeOfDayBranch, readIsDay, execute_calculator_code, fprintf, calcCodes]
  split_ifs <;> simp_all

theorem emitted_first_timeOfDay_2 {σ : Type} (sdk : Sdk) (h : Host σ) (val : σ → ℚ)
    (ht : h.TracksLVar val "(L:c53_is_day, bool)" "0 (>L:c53_is_day, bool)"
      "1 (>L:c53_is_day, bool)")
    (m : SIMCONNECT_RECV) (w : World σ)
    (hm : m.dwID = sdk.SIMCONNECT_RECV_ID_SIMOBJECT_DATA) (hr : m.dwRequestID = REQ_TOD)
    (hd : m.dwData = 2) (hc1 : w.s_lastTODEnum = -1) (hc2 : w.s_lastIsDay = -1) :
    logLines (emitted sdk h m w) = [LogLine.timeOfDay 2, LogLine.isDay 0] ∧
    calcCodes (emitted sdk h m w) = ["0 (>L:c53_is_day, bool)", "(L:c53_is_day, bool)"] ∧
    (MyDispatchProc sdk h m w).s_lastTODEnum = 2 ∧
    (MyDispatchProc sdk h m w).s_lastIsDay = 0 ∧
    val (MyDispatchProc sdk h m w).host = 0 := by
  rw [emitted_timeOfDay sdk h m w hm hr, MyDispatchProc_simobject sdk h m _ hm,
    if_neg (by rw [hr]; exact REQ_TOD_ne_REQ_ONGROUND), if_pos hr]
  simp [timeOfDayBranch, readIsDay, execute_calculator_code, fprintf, calcCodes, logLines, hd, hc1,
    hc2, ht.write0, ht.read_fst, ht.read_snd, normalizeBool_zero]

/-- C6 (as amended): on a host where reading `L:c53_is_day` returns the value last written to it,
a time-of-day delivery of value 2 handled while `s_lastTODEnum` and `s_lastIsDay` are at the
sentinel `-1` prints exactly two lines, `TIME OF DAY enum = 2` and then `L:c53_is_day = 0`; the
one write to `L:c53_is_day` is of 0, followed by its read-back; afterwards both caches have left
the sentinel (`s_lastTODEnum = 2`, `s_lastIsDay = 0`) and the host variable is 0. -/
theorem MyDispatchProc_first_timeOfDay_2 {σ : Type} (sdk : Sdk) (h : Host σ) (val : σ → ℚ)
    (ht : h.TracksLVar val "(L:c53_is_day, bool)" "0 (>L:c53_is_day, bool)"
      "1 (>L:c53_is_day, bool)")
    (m : SIMCONNECT_RECV) (w : World σ)
    (hm : m.dwID = sdk.SIMCONNECT_RECV_ID_SIMOBJECT_DATA) (hr : m.dwRequestID = REQ_TOD)
    (hd : m.dwData = 2) (hc1 : w.s_lastTODEnum = -1) (hc2 : w.s_lastIsDay = -1) :
    logLines (emitted sdk h m w) = [LogLine.timeOfDay 2, LogLine.isDay 0] ∧
    calcCodes (emitted sdk h m w) = ["0 (>L:c53_is_day, bool)", "(L:c53_is_day, bool)"] ∧
    (MyDispatchProc sdk h m w).s_lastTODEnum = 2 ∧
    (MyDispatchProc sdk h m w).s_lastIsDay = 0 ∧
    val (MyDispatchProc sdk h m w).host = 0 :=
  emitted_first_timeOfDay_2 sdk h val ht m w hm hr hd hc1 hc2

/-! ## Messages that are not simulation-object data -/

/-- C10: a message whose kind is not simulation-object data changes nothing but the log: the four
caches, the handle and the host state stay as they were, no calculator string is run, and at most
one line is printed; a message of a kind outside the four handled ones changes nothing at all. -/
theorem MyDispatchProc_other_kinds {σ : Type} (sdk : Sdk) (h : Host σ) (m : SIMCONNECT_RECV)
    (w : World σ) (hm : m.dwID ≠ sdk.SIMCONNECT_RECV_ID_SIMOBJECT_DATA) :
    (∃ lines : List LogLine, lines.length ≤ 1 ∧
      MyDispatchProc sdk h m w = { w with trace := w.trace ++ lines.map Event.log }) ∧
    (m.dwID ≠ sdk.SIMCONNECT_RECV_ID_EVENT_FILENAME → m.dwID ≠ sdk.SIMCONNECT_RECV_ID_EVENT →
      m.dwID ≠ sdk.SIMCONNECT_RECV_ID_EXCEPTION → MyDispatchProc sdk h m w = w) := by
  constructor
  · unfold MyDispatchProc fprintf
    split_ifs
    · exact ⟨[_], by simp, rfl⟩
    · exact ⟨[], by simp, by simp⟩
    · exact ⟨[_], by simp, rfl⟩
    · exact ⟨[], by simp, by simp⟩
    · exact ⟨[_], by simp, rfl⟩
    · exact ⟨[], by simp, by simp⟩
  · intro h1 h2 h3
    simp [MyDispatchProc, h1, h2, h3, hm]

/-! ## Setup -/

/-- C7: in `module_init`, for every assignment of host status codes, when a mandatory step fails
its failure line is printed and nothing follows it: the actions are exactly the calls up to and
including the failing one, then that line.  The five cases are: open; ground-contact definition;
ground-contact request; time-of-day definition (primary and fallback both failing); time-of-day
request.  When the open fails the only call made is the open itself. -/
theorem module_init_aborts {σ : Type} (sdk : Sdk) (r : InitHost) (w : World σ) :
    (r.hrOpen ≠ sdk.S_OK →
      (module_init sdk r w).trace = w.trace ++ [openCall, Event.log LogLine.openFailed]) ∧
    (r.hrOpen = sdk.S_OK → r.hrAddOnGround ≠ sdk.S_OK →
      (module_init sdk r w).trace = w.trace ++
        [openCall, subscribeCall r.hSimConnect, addOnGroundCall r.hSimConnect,
         Event.log LogLine.addOnGroundFailed]) ∧
    (r.hrOpen = sdk.S_OK → r.hrAddOnGround = sdk.S_OK → r.hrRequestOnGround ≠ sdk.S_OK →
      (module_init sdk r w).trace = w.trace ++
        [openCall, subscribeCall r.hSimConnect, addOnGroundCall r.hSimConnect,
         requestOnGroundCall r.hSimConnect, Event.log LogLine.requestOnGroundFailed]) ∧
    (r.hrOpen = sdk.S_OK → r.hrAddOnGround = sdk.S_OK → r.hrRequestOnGround = sdk.S_OK →
      r.hrAddTodEnum ≠ sdk.S_OK → r.hrAddTodNumber ≠ sdk.S_OK →
      (module_init sdk r w).trace = w.trace ++
        [openCall, subscribeCall r.hSimConnect, addOnGroundCall r.hSimConnect,
         requestOnGroundCall r.hSimConnect, addTimeOfDayCall r.hSimConnect "Enum",
         addTimeOfDayCall r.hSimConnect "Number", Event.log LogLine.addTimeOfDayFailed]) ∧
    (r.hrOpen = sdk.S_OK → r.hrAddOnGround = sdk.S_OK → r.hrRequestOnGround = sdk.S_OK →
      (r.hrAddTodEnum = sdk.S_OK ∨ r.hrAddTodNumber = sdk.S_OK) → r.hrRequestTod ≠ sdk.S_OK →
      (module_init sdk r w).trace = w.trace ++ mandatoryCalls sdk r ++
        [Event.log LogLine.requestTimeOfDayFailed]) := by
  refine ⟨?_, ?_, ?_, ?_, ?_⟩
  · intro h1
    simp [module_init, simconnect, fprintf, h1, openCall]
  · intro h1 h2
    simp [module_init, simconnect, fprintf, h1, h2, openCall, subscribeCall, addOnGroundCall]
  · intro h1 h2 h3
    simp [module_init, simconnect, fprintf, h1, h2, h3, openCall, subscribeCall, addOnGroundCall,
      requestOnGroundCall]
  · intro h1 h2 h3 h4 h5
    simp [module_init, defineTimeOfDay, simconnect, fprintf, h1, h2, h3, h4, h5, openCall,
      subscribeCall, addOnGroundCall, requestOnGroundCall, addTimeOfDayCall]
  · intro h1 h2 h3 h4 h5
    by_cases he : r.hrAddTodEnum = sdk.S_OK
    · simp [module_init, defineTimeOfDay, simconnect, fprintf, h1, h2, h3, h5, he, openCall,
        subscribeCall, addOnGroundCall, requestOnGroundCall, addTimeOfDayCall,
        requestTimeOfDayCall, mandatoryCalls, timeOfDayDefinitionCalls]
    · have hn : r.hrAddTodNumber = sdk.S_OK := h4.resolve_left he
      simp [module_init, defineTimeOfDay, simconnect, fprintf, h1, h2, h3, h5, he, hn, openCall,
        subscribeCall, addOnGroundCall, requestOnGroundCall, addTimeOfDayCall,
        requestTimeOfDayCall, mandatoryCalls, timeOfDayDefinitionCalls]

theorem mapInputAndDispatch_trace {σ : Type} (sdk : Sdk) (r : InitHost) (w : World σ)
    (hw : w.g_hSimConnect = r.hSimConnect) :
    (mapInputAndDispatch sdk r w).trace = w.trace ++ inputMappingActions sdk r := by
  simp only [mapInputAndDispatch, inputMappingActions, simconnect, fprintf, mapClientEventCall,
    addToNotificationGroupCall, setNotificationPriorityCall, mapKeyCall, setInputPriorityCall,
    setInputStateCall, callDispatchCall]
  by_cases a : r.hrMapEvt = sdk.S_OK <;> by_cases b : r.hrAdd = sdk.S_OK <;>
    by_cases c : r.hrKey = sdk.S_OK <;> by_cases d : r.hrCallDispatch = sdk.S_OK <;>
    simp [a, b, c, d, hw]

/-- With the mandatory steps successful, `module_init` reaches line 206 having made exactly the
mandatory calls. -/
theorem module_init_of_mandatoryOK {σ : Type} (sdk : Sdk) (r : InitHost) (w : World σ)
    (hok : MandatoryOK sdk r) :
    module_init sdk r w = mapInputAndDispatch sdk r
      { w with g_hSimConnect := r.hSimConnect, trace := w.trace ++ mandatoryCalls sdk r } := by
  obtain ⟨h1, h2, h3, h4, h5⟩ := hok
  by_cases he : r.hrAddTodEnum = sdk.S_OK
  · simp [module_init, defineTimeOfDay, simconnect, h1, h2, h3, h5, he, openCall,
      subscribeCall, addOnGroundCall, requestOnGroundCall, addTimeOfDayCall,
      requestTimeOfDayCall, mandatoryCalls, timeOfDayDefinitionCalls]
  · have hn : r.hrAddTodNumber = sdk.S_OK := h4.resolve_left he
    simp [module_init, defineTimeOfDay, simconnect, h1, h2, h3, h5, he, hn, openCall,
      subscribeCall, addOnGroundCall, requestOnGroundCall, addTimeOfDayCall,
      requestTimeOfDayCall, mandatoryCalls, timeOfDayDefinitionCalls]

theorem addTimeOfDayFailed_not_mem_inputMappingActions (sdk : Sdk) (r : InitHost) :
    Event.log LogLine.addTimeOfDayFailed ∉ inputMappingActions sdk r := by
  simp only [inputMappingActions, mapClientEventCall, addToNotificationGroupCall,
    setNotificationPriorityCall, mapKeyCall, setInputPriorityCall, setInputStateCall,
    callDispatchCall]
  by_cases a : r.hrMapEvt = sdk.S_OK <;> by_cases b : r.hrAdd = sdk.S_OK <;>
    by_cases c : r.hrKey = sdk.S_OK <;> by_cases d : r.hrCallDispatch = sdk.S_OK <;>
    simp [a, b, c, d]

/-- C8: in `module_init`, when the open, the ground-contact definition and the ground-contact
request succeed, the primary time-of-day definition (units `"Enum"`) fails and the fallback
(units `"Number"`) succeeds, setup goes on: right after the fallback call, which defines
`DEF_TOD`, comes the request `REQ_TOD` on `DEF_TOD`, and the definition failure line is not
printed. -/
theorem module_init_fallback {σ : Type} (sdk : Sdk) (r : InitHost) (w : World σ)
    (h1 : r.hrOpen = sdk.S_OK) (h2 : r.hrAddOnGround = sdk.S_OK)
    (h3 : r.hrRequestOnGround = sdk.S_OK) (h4 : r.hrAddTodEnum ≠ sdk.S_OK)
    (h5 : r.hrAddTodNumber = sdk.S_OK) :
    ∃ rest : List Event,
      (module_init sdk r w).trace = w.trace ++
        [openCall, subscribeCall r.hSimConnect, addOnGroundCall r.hSimConnect,
         requestOnGroundCall r.hSimConnect,
         Event.simconnect (SimCall.AddToDataDefinition r.hSimConnect DEF_TOD "TIME OF DAY" "Enum"
           SdkConst.SIMCONNECT_DATATYPE_INT32),
         Event.simconnect (SimCall.AddToDataDefinition r.hSimConnect DEF_TOD "TIME OF DAY" "Number"
           SdkConst.SIMCONNECT_DATATYPE_INT32),
         Event.simconnect (SimCall.RequestDataOnSimObject r.hSimConnect REQ_TOD DEF_TOD
           SdkConst.SIMCONNECT_OBJECT_ID_USER SdkConst.SIMCONNECT_PERIOD_SIM_FRAME
           SdkConst.SIMCONNECT_DATA_REQUEST_FLAG_CHANGED)] ++ rest ∧
      Event.log LogLine.addTimeOfDayFailed ∉ rest := by
  by_cases h6 : r.hrRequestTod = sdk.S_OK
  · refine ⟨inputMappingActions sdk r, ?_, addTimeOfDayFailed_not_mem_inputMappingActions sdk r⟩
    rw [module_init_of_mandatoryOK sdk r w ⟨h1, h2, h3, Or.inr h5, h6⟩,
      mapInputAndDispatch_trace sdk r _ rfl]
    simp [mandatoryCalls, timeOfDayDefinitionCalls, h4, addTimeOfDayCall, requestTimeOfDayCall]
  · exact ⟨[Event.log LogLine.requestTimeOfDayFailed], by
      simp [module_init, defineTimeOfDay, simconnect, fprintf, h1, h2, h3, h4, h5, h6, openCall,
        subscribeCall, addOnGroundCall, requestOnGroundCall], by simp⟩

/-- C9 (as amended): in `module_init`, once the mandatory steps have succeeded, all six
input-mapping calls and then the dispatcher registration are made, in source order, whatever
status codes they return.  The three calls whose status is kept (`hrMapEvt`, `hrAdd`, `hrKey`)
each print, when they fail, their failure line with that status code; the statuses of the two
priority calls and of the state call are not looked at, and no line is printed for them. -/
theorem module_init_input_mapping {σ : Type} (sdk : Sdk) (r : InitHost) (w : World σ)
    (hok : MandatoryOK sdk r) :
    (module_init sdk r w).trace = w.trace ++ mandatoryCalls sdk r ++
      ([mapClientEventCall r.hSimConnect] ++
      (if r.hrMapEvt ≠ sdk.S_OK then
        [Event.log (LogLine.mapClientEventFailed (castUnsigned r.hrMapEvt))] else []) ++
      [addToNotificationGroupCall r.hSimConnect] ++
      (if r.hrAdd ≠ sdk.S_OK then
        [Event.log (LogLine.addToNotificationGroupFailed (castUnsigned r.hrAdd))] else []) ++
      [setNotificationPriorityCall r.hSimConnect, mapKeyCall r.hSimConnect] ++
      (if r.hrKey ≠ sdk.S_OK then
        [Event.log (LogLine.mapInputEventFailed (castUnsigned r.hrKey))] else []) ++
      [setInputPriorityCall r.hSimConnect, setInputStateCall r.hSimConnect,
       callDispatchCall r.hSimConnect,
       Event.log (if r.hrCallDispatch ≠ sdk.S_OK then LogLine.dispatchFailed
         else LogLine.initOK)]) ∧
    ∀ a b c : Int,
      module_init sdk
        { r with
          hrSetNotificationPriority := a
          hrSetInputPriority := b
          hrSetInputState := c } w = module_init sdk r w := by
  refine ⟨?_, fun a b c => rfl⟩
  rw [module_init_of_mandatoryOK sdk r w hok, mapInputAndDispatch_trace sdk r _ rfl]
  rfl

/-! ## The reference host and concrete runs -/

theorem lvarHost_tracks_landing :
    lvarHost.TracksLVar LVars.c53_landing "(L:c53_landing, bool)" "0 (>L:c53_landing, bool)"
      "1 (>L:c53_landing, bool)" := by
  intro s
  simp [lvarHost]

theorem lvarHost_tracks_isDay :
    lvarHost.TracksLVar LVars.c53_is_day "(L:c53_is_day, bool)" "0 (>L:c53_is_day, bool)"
      "1 (>L:c53_is_day, bool)" := by
  intro s
  simp [lvarHost]

theorem scenarioA_ground :
    ∀ m ∈ scenarioA, m.dwID = sdk0.SIMCONNECT_RECV_ID_SIMOBJECT_DATA ∧
      m.dwRequestID = REQ_ONGROUND := by
  simp [scenarioA, groundMsg, sdk0]

/-- Scenario A on the reference host: the third delivery (payload 1 after payload 0) prints the
`SIM ON GROUND` line with value 1, and the three deliveries print `[0]`, nothing, `[1]`. -/
theorem MyDispatchProc_onGround_change_log_witness :
    (∃ seg, (deliveries sdk0 lvarHost scenarioA (World.initial lvars0))[2]? = some seg ∧
      groundLines seg = [1]) ∧
    (deliveries sdk0 lvarHost scenarioA (World.initial lvars0)).map groundLines =
      [[0], [], [1]] :=
  ⟨by simpa [scenarioA, groundMsg, normalizeOnGround] using
      (MyDispatchProc_onGround_change_log sdk0 lvarHost lvars0).1 scenarioA
        (by simp [scenarioA, groundMsg, sdk0]) 2 (by simp [scenarioA]),
   (MyDispatchProc_onGround_change_log sdk0 lvarHost lvars0).2 (groundMsg 0) (groundMsg 0)
      (groundMsg 1) scenarioA_ground rfl rfl rfl⟩

/-- Scenario A on the reference host: each forcing action happens three times. -/
theorem MyDispatchProc_onGround_forces_once_witness :
    soundVolumeWrites (deliveries sdk0 lvarHost scenarioA (World.initial lvars0)).flatten = 3 ∧
    timeOfDayReads (deliveries sdk0 lvarHost scenarioA (World.initial lvars0)).flatten = 3 ∧
    isDayWrites (deliveries sdk0 lvarHost scenarioA (World.initial lvars0)).flatten = 3 ∧
    forcedTimeOfDayLines (deliveries sdk0 lvarHost scenarioA (World.initial lvars0)).flatten = 3 :=
  (MyDispatchProc_onGround_forces_once sdk0 lvarHost scenarioA (World.initial lvars0)
    scenarioA_ground).2.2

/-- On the reference host a ground-contact delivery with payload 5 ends with the write of 1 to
`L:c53_landing` and its read-back, prints the `L:c53_landing` line with 1, and leaves
`L:c53_landing` and `s_lastLanding` at 1. -/
theorem MyDispatchProc_landing_readback_witness :
    calcCodes (emitted sdk0 lvarHost (groundMsg 5) (World.initial lvars0)) =
      ["100 (>L:C53_SOUND_VOLUME, number)", "(TIME OF DAY, enum)", "0 (>L:c53_is_day, bool)",
       "1 (>L:c53_landing, bool)", "(L:c53_landing, bool)"] ∧
    (MyDispatchProc sdk0 lvarHost (groundMsg 5) (World.initial lvars0)).host.c53_landing = 1 ∧
    (MyDispatchProc sdk0 lvarHost (groundMsg 5) (World.initial lvars0)).s_lastLanding = 1 :=
  ⟨(MyDispatchProc_landing_readback sdk0 lvarHost (groundMsg 5) (World.initial lvars0)
      rfl rfl).1.trans (by
        simp [ForceTimeOfDayValue, ForceSoundVolumeValue, execute_calculator_code, fprintf,
          calcCodes, World.initial, lvarHost, lvars0, castInt, groundMsg, normalizeOnGround]),
   by simpa [groundMsg, normalizeOnGround] using
      ((MyDispatchProc_landing_readback sdk0 lvarHost (groundMsg 5) (World.initial lvars0)
        rfl rfl).2.2.2.2 LVars.c53_landing lvarHost_tracks_landing).1,
   by simpa [groundMsg, normalizeOnGround] using
      ((MyDispatchProc_landing_readback sdk0 lvarHost (groundMsg 5) (World.initial lvars0)
        rfl rfl).2.2.2.2 LVars.c53_landing lvarHost_tracks_landing).2.2⟩

/-- A time-of-day delivery of value 1 writes 1 to `L:c53_is_day`. -/
theorem MyDispatchProc_isDay_write_witness :
    calcCodes (emitted sdk0 lvarHost (todMsg 1) (World.initial lvars0)) =
      ["1 (>L:c53_is_day, bool)", "(L:c53_is_day, bool)"] := by
  simpa [todMsg] using
    MyDispatchProc_isDay_write sdk0 lvarHost (todMsg 1) (World.initial lvars0) rfl rfl

/-- C6 (as stated, refuted): on the reference host, where a read returns the value last written,
the first time-of-day delivery, of value 2, prints two lines, not only the one for the time of
day. -/
theorem first_timeOfDay_2_prints_two_lines :
    logLines (emitted sdk0 lvarHost (todMsg 2) (World.initial lvars0)) =
      [LogLine.timeOfDay 2, LogLine.isDay 0] ∧
    logLines (emitted sdk0 lvarHost (todMsg 2) (World.initial lvars0)) ≠
      [LogLine.timeOfDay 2] := by
  have h := (emitted_first_timeOfDay_2 sdk0 lvarHost LVars.c53_is_day lvarHost_tracks_isDay
    (todMsg 2) (World.initial lvars0) rfl rfl rfl rfl rfl).1
  exact ⟨h, by rw [h]; decide⟩

/-- Scenario B on the reference host. -/
theorem MyDispatchProc_first_timeOfDay_2_witness :
    logLines (emitted sdk0 lvarHost (todMsg 2) (World.initial lvars0)) =
      [LogLine.timeOfDay 2, LogLine.isDay 0] ∧
    calcCodes (emitted sdk0 lvarHost (todMsg 2) (World.initial lvars0)) =
      ["0 (>L:c53_is_day, bool)", "(L:c53_is_day, bool)"] ∧
    (MyDispatchProc sdk0 lvarHost (todMsg 2) (World.initial lvars0)).s_lastTODEnum = 2 ∧
    (MyDispatchProc sdk0 lvarHost (todMsg 2) (World.initial lvars0)).s_lastIsDay = 0 ∧
    (MyDispatchProc sdk0 lvarHost (todMsg 2) (World.initial lvars0)).host.c53_is_day = 0 :=
  MyDispatchProc_first_timeOfDay_2 sdk0 lvarHost LVars.c53_is_day lvarHost_tracks_isDay
    (todMsg 2) (World.initial lvars0) rfl rfl rfl rfl rfl

/-- An exception message leaves the state alone; nothing but one line is added. -/
theorem MyDispatchProc_other_kinds_witness :
    ∃ lines : List LogLine, lines.length ≤ 1 ∧
      MyDispatchProc sdk0 lvarHost exceptionMsg (World.initial lvars0) =
        { (World.initial lvars0) with
          trace := (World.initial lvars0).trace ++ lines.map Event.log } :=
  (MyDispatchProc_other_kinds sdk0 lvarHost exceptionMsg (World.initial lvars0)
    (by decide)).1

/-- Scenario D: the open fails; the open is the only call and its failure line follows. -/
theorem module_init_aborts_witness :
    (module_init sdk0 openFails (World.initial ())).trace =
      [openCall, Event.log LogLine.openFailed] := by
  simpa [World.initial] using
    (module_init_aborts sdk0 openFails (World.initial ())).1 (by decide)

/-- Scenario C: the primary definition is rejected, the fallback accepted. -/
theorem module_init_fallback_witness :
    ∃ rest : List Event,
      (module_init sdk0 enumRejected (World.initial ())).trace = (World.initial ()).trace ++
        [openCall, subscribeCall enumRejected.hSimConnect, addOnGroundCall enumRejected.hSimConnect,
         requestOnGroundCall enumRejected.hSimConnect,
         Event.simconnect (SimCall.AddToDataDefinition enumRejected.hSimConnect DEF_TOD
           "TIME OF DAY" "Enum" SdkConst.SIMCONNECT_DATATYPE_INT32),
         Event.simconnect (SimCall.AddToDataDefinition enumRejected.hSimConnect DEF_TOD
           "TIME OF DAY" "Number" SdkConst.SIMCONNECT_DATATYPE_INT32),
         Event.simconnect (SimCall.RequestDataOnSimObject enumRejected.hSimConnect REQ_TOD DEF_TOD
           SdkConst.SIMCONNECT_OBJECT_ID_USER SdkConst.SIMCONNECT_PERIOD_SIM_FRAME
           SdkConst.SIMCONNECT_DATA_REQUEST_FLAG_CHANGED)] ++ rest ∧
      Event.log LogLine.addTimeOfDayFailed ∉ rest :=
  module_init_fallback sdk0 enumRejected (World.initial ()) rfl rfl rfl (by decide) rfl

/-- C9 (as stated, refuted): with every other call successful, a failing
`SimConnect_SetNotificationGroupPriority` prints no failure line; the only line of the whole
setup is the closing `init OK` one, and no printed line carries a status code. -/
theorem setNotificationPriority_failure_not_logged :
    priorityFails.hrSetNotificationPriority ≠ sdk0.S_OK ∧ MandatoryOK sdk0 priorityFails ∧
    logLines (module_init sdk0 priorityFails (World.initial ())).trace = [LogLine.initOK] ∧
    ¬ ∃ l ∈ logLines (module_init sdk0 priorityFails (World.initial ())).trace,
        l.statusCode = some (castUnsigned priorityFails.hrSetNotificationPriority) := by
  have hl : logLines (module_init sdk0 priorityFails (World.initial ())).trace =
      [LogLine.initOK] := by decide
  refine ⟨by decide, by decide, hl, ?_⟩
  rw [hl]
  simp [LogLine.statusCode]

/-- Only the key mapping fails: all calls are made, and the one failure line carries `E_FAIL` as
an unsigned number. -/
theorem module_init_input_mapping_witness :
    logLines (module_init sdk0 keyFails (World.initial ())).trace =
      [LogLine.mapInputEventFailed 2147500037, LogLine.initOK] ∧
    simCalls (module_init sdk0 keyFails (World.initial ())).trace =
      [SimCall.Open "Standalone Module",
       SimCall.SubscribeToSystemEvent 7 EVENT_FLIGHT_LOADED "FlightLoaded",
       SimCall.AddToDataDefinition 7 DEF_ONGROUND "SIM ON GROUND" "Bool"
         SdkConst.SIMCONNECT_DATATYPE_INT32,
       SimCall.RequestDataOnSimObject 7 REQ_ONGROUND DEF_ONGROUND
         SdkConst.SIMCONNECT_OBJECT_ID_USER SdkConst.SIMCONNECT_PERIOD_SIM_FRAME
         SdkConst.SIMCONNECT_DATA_REQUEST_FLAG_CHANGED,
       SimCall.AddToDataDefinition 7 DEF_TOD "TIME OF DAY" "Enum"
         SdkConst.SIMCONNECT_DATATYPE_INT32,
       SimCall.RequestDataOnSimObject 7 REQ_TOD DEF_TOD
         SdkConst.SIMCONNECT_OBJECT_ID_USER SdkConst.SIMCONNECT_PERIOD_SIM_FRAME
         SdkConst.SIMCONNECT_DATA_REQUEST_FLAG_CHANGED,
       SimCall.MapClientEventToSimEvent 7 EVENT_KEY_M none,
       SimCall.AddClientEventToNotificationGroup 7 GROUP_KEYS EVENT_KEY_M false,
       SimCall.SetNotificationGroupPriority 7 GROUP_KEYS
         SdkConst.SIMCONNECT_GROUP_PRIORITY_HIGHEST,
       SimCall.MapInputEventToClientEvent_EX1 7 INPUT_KEYS "M" EVENT_KEY_M,
       SimCall.SetInputGroupPriority 7 INPUT_KEYS SdkConst.SIMCONNECT_GROUP_PRIORITY_HIGHEST,
       SimCall.SetInputGroupState 7 INPUT_KEYS SdkConst.SIMCONNECT_STATE_ON,
       SimCall.CallDispatch 7] := by
  have h := (module_init_input_mapping sdk0 keyFails (World.initial ()) (by decide)).1
  rw [h]
  decide

end WASM_Module1
